import Mathlib

/-!
Verification of the `harness/ti-client` HTTP client library.

This file shallowly embeds the request-execution core of the library
(`src/client/http.go`), the client error type (`Error`), the checksum
chaining utilities (`src/chrysalis/utils/utils.go`) and the TLS/trust-root
setup, and proves or refutes the specified behavioral properties.

Go machine integers are modelled as `Nat` (with explicit `% 2 ^ 64` where
64-bit overflow matters), fallible Go calls as `Option`/`Except`, and the
stateful retry loop as a recursion over an explicit trace of per-iteration
observations (attempt outcome, context state at the check point, and the
value produced by `NextBackOff`).
-/

namespace TiClient

/-- A Go `error` value as the client observes it.  `domain` is the structured
`client.Error` type (`src/unnamed/part_002`: fields `Code`, `Message`);
`plain` is an `errors.New`/`fmt.Errorf` error carrying only a message;
`canceled`/`deadlineExceeded` are the two non-nil results of `ctx.Err()`;
`transport` is a connection/TLS/timeout failure produced by the HTTP
transport; `decodeFail` is a `json.Unmarshal` failure on a response body. -/
inductive GoError where
  | domain (code : Nat) (message : String)
  | plain (message : String)
  | canceled
  | deadlineExceeded
  | transport (message : String)
  | decodeFail (message : String)
deriving DecidableEq

/-- The `(res, err)` pair produced by one attempt inside `retry`
(src/client/http.go:392-396).  `res` is the status code of the response when
a response object exists (`res != nil`), `none` when the attempt produced no
response at all. -/
structure RetryOutcome where
  res : Option Nat
  err : Option GoError
deriving DecidableEq

/-- Everything one iteration of the `retry` loop observes from its
environment: the outcome of the attempt (`c.do` or `c.open`), the value of
`ctx.Err()` at the single per-iteration cancellation check
(src/client/http.go:399), and the value of `b.NextBackOff()`
(src/client/http.go:404), where `none` stands for `backoff.Stop`. -/
structure IterEnv where
  out : RetryOutcome
  ctxErr : Option GoError
  backoff : Option Nat
deriving DecidableEq

/-- Result of running the `retry` loop over a trace: `done res err attempts
sleeps` means the loop returned `(res, err)` having performed `attempts`
attempts and `sleeps` calls to `time.Sleep`; `hang` means the supplied trace
was exhausted before the loop returned (the loop would keep iterating). -/
inductive RetryResult where
  | done (res : Option Nat) (err : Option GoError) (attempts : Nat) (sleeps : Nat)
  | hang
deriving DecidableEq

/-- The retry loop of src/client/http.go:388-429, as a recursion over the
trace of per-iteration observations.  Flow of one iteration: perform the
attempt, return `(res, ctx.Err())` if the context is cancelled, read
`NextBackOff`, then: a response with status `>= 500` under
`retryOnServerErrors` retries (or returns `(nil, err)` when the schedule
says Stop); no response together with a non-nil error retries the same way;
every other outcome returns `(res, err)` immediately. -/
def retry (retryOnServerErrors : Bool) (attempts sleeps : Nat) :
    List IterEnv → RetryResult
  | [] => .hang
  | it :: rest =>
    match it.ctxErr with
    | some cerr => .done it.out.res (some cerr) (attempts + 1) sleeps
    | none =>
      match it.out.res with
      | some status =>
        if 500 ≤ status ∧ retryOnServerErrors then
          match it.backoff with
          | none => .done none it.out.err (attempts + 1) sleeps
          | some _ => retry retryOnServerErrors (attempts + 1) (sleeps + 1) rest
        else
          .done it.out.res it.out.err (attempts + 1) sleeps
      | none =>
        match it.out.err with
        | some _ =>
          match it.backoff with
          | none => .done none it.out.err (attempts + 1) sleeps
          | some _ => retry retryOnServerErrors (attempts + 1) (sleeps + 1) rest
        | none => .done it.out.res it.out.err (attempts + 1) sleeps

/-- The condition under which an iteration of `retry` attempts another try
(before consulting the backoff schedule): a response with a server-error
status while `retryOnServerErrors` is set, or no response at all together
with a non-nil error. -/
def retryCond (retryOnServerErrors : Bool) (o : RetryOutcome) : Prop :=
  (∃ status, o.res = some status ∧ 500 ≤ status ∧ retryOnServerErrors) ∨
    (o.res = none ∧ o.err ≠ none)

instance (b : Bool) (o : RetryOutcome) : Decidable (retryCond b o) := by
  unfold retryCond; infer_instance

/-- The invariant satisfied by every outcome of the JSON single-attempt
primitive `do` (src/client/http.go:433-503): a missing response comes with a
non-nil error, and a response with status `>= 300` comes with a non-nil
error (`do` always constructs one at src/client/http.go:483-498). -/
def doOutcomeInv (o : RetryOutcome) : Prop :=
  (o.res = none → o.err ≠ none) ∧
    (∀ status, o.res = some status → 300 ≤ status → o.err ≠ none)

/-- The string fields of the `HTTPClient` struct (src/client/http.go:198-213)
that the argument validators consult. -/
structure HTTPClient where
  endpoint : String
  token : String
  accountID : String
  orgID : String
  projectID : String
  pipelineID : String
  buildID : String
  stageID : String
  repo : String
  sha : String
  commitLink : String
deriving DecidableEq

/-- `validateTiArgs` (src/client/http.go:534-542): `some msg` is the returned
validation error, `none` means the check passed. -/
def validateTiArgs (c : HTTPClient) : Option String :=
  if c.endpoint = "" then some "ti endpoint is not set"
  else if c.token = "" then some "ti token is not set"
  else none

/-- `validateBasicArgs` (src/client/http.go:544-558). -/
def validateBasicArgs (c : HTTPClient) : Option String :=
  if c.accountID = "" then some "accountID is not set"
  else if c.orgID = "" then some "orgID is not set"
  else if c.projectID = "" then some "projectID is not set"
  else if c.pipelineID = "" then some "pipelineID is not set"
  else none

/-- `validateWriteArgs` (src/client/http.go:560-580). -/
def validateWriteArgs (c : HTTPClient) (stepID report : String) : Option String :=
  match validateTiArgs c with
  | some msg => some msg
  | none =>
    match validateBasicArgs c with
    | some msg => some msg
    | none =>
      if c.buildID = "" then some "buildID is not set"
      else if c.stageID = "" then some "stageID is not set"
      else if stepID = "" then some "stepID is not set"
      else if report = "" then some "report is not set"
      else none

/-- `validateWriteSavingsArgs` (src/client/http.go:582-599). -/
def validateWriteSavingsArgs (c : HTTPClient) (stepID : String) : Option String :=
  match validateTiArgs c with
  | some msg => some msg
  | none =>
    match validateBasicArgs c with
    | some msg => some msg
    | none =>
      if c.buildID = "" then some "buildID is not set"
      else if c.stageID = "" then some "stageID is not set"
      else if stepID = "" then some "stepID is not set"
      else none

/-- `validateDownloadLinkArgs` (src/client/http.go:601-609). -/
def validateDownloadLinkArgs (c : HTTPClient) (language : String) : Option String :=
  match validateTiArgs c with
  | some msg => some msg
  | none => if language = "" then some "language is not set" else none

/-- `validateSelectTestsArgs` (src/client/http.go:611-634). -/
def validateSelectTestsArgs (c : HTTPClient) (stepID source target : String) :
    Option String :=
  match validateTiArgs c with
  | some msg => some msg
  | none =>
    match validateBasicArgs c with
    | some msg => some msg
    | none =>
      if c.buildID = "" then some "buildID is not set"
      else if c.stageID = "" then some "stageID is not set"
      else if stepID = "" then some "stepID is not set"
      else if source = "" then some "source branch is not set"
      else if target = "" then some "target branch is not set"
      else none

/-- `validateUploadCgArgs` (src/client/http.go:636-659). -/
def validateUploadCgArgs (c : HTTPClient) (stepID source target : String) :
    Option String :=
  match validateTiArgs c with
  | some msg => some msg
  | none =>
    match validateBasicArgs c with
    | some msg => some msg
    | none =>
      if c.buildID = "" then some "buildID is not set"
      else if c.stageID = "" then some "stageID is not set"
      else if stepID = "" then some "stepID is not set"
      else if source = "" then some "source branch is not set"
      else if target = "" then some "target branch is not set"
      else none

/-- `validateGetTestTimesArgs` (src/client/http.go:661-666). -/
def validateGetTestTimesArgs (c : HTTPClient) : Option String :=
  match validateTiArgs c with
  | some msg => some msg
  | none => validateBasicArgs c

/-- `validateCommitInfoArgs` (src/client/http.go:668-688).  Note the message
for an empty `branch` argument: the literal is "source branch is not set". -/
def validateCommitInfoArgs (c : HTTPClient) (stepID branch : String) : Option String :=
  match validateTiArgs c with
  | some msg => some msg
  | none =>
    match validateBasicArgs c with
    | some msg => some msg
    | none =>
      if c.buildID = "" then some "buildID is not set"
      else if c.stageID = "" then some "stageID is not set"
      else if stepID = "" then some "stepID is not set"
      else if branch = "" then some "source branch is not set"
      else none

/-- `validateMLSelectTestArgs` (src/client/http.go:690-695). -/
def validateMLSelectTestArgs (c : HTTPClient) : Option String :=
  match validateTiArgs c with
  | some msg => some msg
  | none => validateBasicArgs c

/-- The executor invocation an operation performs after validation:
`retryWith isOpen retryOnServerErrors maxElapsedSec` is a `c.retry` call
with those flags and backoff budget; `single` is a direct `c.do` call (one
attempt, no retry). -/
inductive Executor where
  | retryWith (isOpen : Bool) (retryOnServerErrors : Bool) (maxElapsedSec : Nat)
  | single
deriving DecidableEq

/-- `Write` (src/client/http.go:216-224): 10-minute budget, not retried on
server errors (`retryOnServerErrors` is passed as `false`). -/
def writeOp (c : HTTPClient) (stepID report : String) : Except String Executor :=
  match validateWriteArgs c stepID report with
  | some msg => .error msg
  | none => .ok (.retryWith false false (10 * 60))

/-- `DownloadLink` (src/client/http.go:227-236): 5-minute budget. -/
def downloadLinkOp (c : HTTPClient) (language : String) : Except String Executor :=
  match validateDownloadLinkArgs c language with
  | some msg => .error msg
  | none => .ok (.retryWith false true (5 * 60))

/-- `SelectTests` (src/client/http.go:239-251): 10-minute budget, not
retried on server errors. -/
def selectTestsOp (c : HTTPClient) (stepID source target : String) :
    Except String Executor :=
  match validateSelectTestsArgs c stepID source target with
  | some msg => .error msg
  | none => .ok (.retryWith false false (10 * 60))

/-- `uploadCGInternal` (src/client/http.go:286-294): 45-minute budget,
retried on server errors; used by both `UploadCg` and `UploadCgFailedTest`
(src/client/http.go:253-265). -/
def uploadCGInternal (c : HTTPClient) (stepID source target : String) :
    Except String Executor :=
  match validateUploadCgArgs c stepID source target with
  | some msg => .error msg
  | none => .ok (.retryWith false true (45 * 60))

/-- `UploadCg` (src/client/http.go:258-265). -/
def uploadCgOp (c : HTTPClient) (stepID source target : String) :
    Except String Executor :=
  uploadCGInternal c stepID source target

/-- `UploadCgFailedTest` (src/client/http.go:253-255). -/
def uploadCgFailedTestOp (c : HTTPClient) (stepID source target : String) :
    Except String Executor :=
  uploadCGInternal c stepID source target

/-- The dynamic payload of `UploadCgV2`: a Go `string` (treated as raw JSON)
or any other shape. -/
inductive CgPayload where
  | rawString (s : String)
  | other
deriving DecidableEq

/-- `UploadCgV2` (src/client/http.go:268-284): 45-minute budget through the
`open` path for string payloads, `"payload type not supported"` otherwise. -/
def uploadCgV2Op (c : HTTPClient) (payload : CgPayload) : Except String Executor :=
  match validateTiArgs c with
  | some msg => .error msg
  | none =>
    match payload with
    | .rawString _ => .ok (.retryWith true true (45 * 60))
    | .other => .error "payload type not supported"

/-- `GetTestTimes` (src/client/http.go:297-306): the backoff is built with
`createBackoff(10 * 60 * time.Second)`. -/
def getTestTimesOp (c : HTTPClient) : Except String Executor :=
  match validateGetTestTimesArgs c with
  | some msg => .error msg
  | none => .ok (.retryWith false true (10 * 60))

/-- `CommitInfo` (src/client/http.go:309-318): 5-minute budget. -/
def commitInfoOp (c : HTTPClient) (stepID branch : String) : Except String Executor :=
  match validateCommitInfoArgs c stepID branch with
  | some msg => .error msg
  | none => .ok (.retryWith false true (5 * 60))

/-- `MLSelectTests` (src/client/http.go:321-329): direct `do`, one attempt. -/
def mlSelectTestsOp (c : HTTPClient) : Except String Executor :=
  match validateMLSelectTestArgs c with
  | some msg => .error msg
  | none => .ok .single

/-- `Summary` (src/client/http.go:331-343): 5-minute budget. -/
def summaryOp (c : HTTPClient) : Except String Executor :=
  match validateMLSelectTestArgs c with
  | some msg => .error msg
  | none => .ok (.retryWith false true (5 * 60))

/-- `GetTestCases` (src/client/http.go:345-357): 5-minute budget. -/
def getTestCasesOp (c : HTTPClient) : Except String Executor :=
  match validateMLSelectTestArgs c with
  | some msg => .error msg
  | none => .ok (.retryWith false true (5 * 60))

/-- `WriteSavings` (src/client/http.go:360-368): direct `do`, one attempt. -/
def writeSavingsOp (c : HTTPClient) (stepID : String) : Except String Executor :=
  match validateWriteSavingsArgs c stepID with
  | some msg => .error msg
  | none => .ok .single

/-- A fully populated client, used as the concrete instance in witnesses and
counterexamples. -/
def cFull : HTTPClient :=
  ⟨"https://ti.example.com", "tok", "acc", "org", "proj", "pipe", "b1", "stg",
    "repo", "sha1", "link"⟩

/-- Go `net/http.StatusText`: the canonical reason phrase for a status code,
`""` for unknown codes. -/
def statusText (code : Nat) : String :=
  if code = 100 then "Continue"
  else if code = 101 then "Switching Protocols"
  else if code = 102 then "Processing"
  else if code = 103 then "Early Hints"
  else if code = 200 then "OK"
  else if code = 201 then "Created"
  else if code = 202 then "Accepted"
  else if code = 203 then "Non-Authoritative Information"
  else if code = 204 then "No Content"
  else if code = 205 then "Reset Content"
  else if code = 206 then "Partial Content"
  else if code = 207 then "Multi-Status"
  else if code = 208 then "Already Reported"
  else if code = 226 then "IM Used"
  else if code = 300 then "Multiple Choices"
  else if code = 301 then "Moved Permanently"
  else if code = 302 then "Found"
  else if code = 303 then "See Other"
  else if code = 304 then "Not Modified"
  else if code = 305 then "Use Proxy"
  else if code = 307 then "Temporary Redirect"
  else if code = 308 then "Permanent Redirect"
  else if code = 400 then "Bad Request"
  else if code = 401 then "Unauthorized"
  else if code = 402 then "Payment Required"
  else if code = 403 then "Forbidden"
  else if code = 404 then "Not Found"
  else if code = 405 then "Method Not Allowed"
  else if code = 406 then "Not Acceptable"
  else if code = 407 then "Proxy Authentication Required"
  else if code = 408 then "Request Timeout"
  else if code = 409 then "Conflict"
  else if code = 410 then "Gone"
  else if code = 411 then "Length Required"
  else if code = 412 then "Precondition Failed"
  else if code = 413 then "Request Entity Too Large"
  else if code = 414 then "Request URI Too Long"
  else if code = 415 then "Unsupported Media Type"
  else if code = 416 then "Requested Range Not Satisfiable"
  else if code = 417 then "Expectation Failed"
  else if code = 418 then "I\x27m a teapot"
  else if code = 421 then "Misdirected Request"
  else if code = 422 then "Unprocessable Entity"
  else if code = 423 then "Locked"
  else if code = 424 then "Failed Dependency"
  else if code = 425 then "Too Early"
  else if code = 426 then "Upgrade Required"
  else if code = 428 then "Precondition Required"
  else if code = 429 then "Too Many Requests"
  else if code = 431 then "Request Header Fields Too Large"
  else if code = 451 then "Unavailable For Legal Reasons"
  else if code = 500 then "Internal Server Error"
  else if code = 501 then "Not Implemented"
  else if code = 502 then "Bad Gateway"
  else if code = 503 then "Service Unavailable"
  else if code = 504 then "Gateway Timeout"
  else if code = 505 then "HTTP Version Not Supported"
  else if code = 506 then "Variant Also Negotiates"
  else if code = 507 then "Insufficient Storage"
  else if code = 508 then "Loop Detected"
  else if code = 510 then "Not Extended"
  else if code = 511 then "Network Authentication Required"
  else ""

/-- Reading the response body with `io.ReadAll` (src/client/http.go:478):
either the bytes (as a string) or a read error. -/
inductive BodyRead where
  | readErr (e : GoError)
  | bytes (b : String)
deriving DecidableEq

/-- The result of `c.client().Do(req)`: either a transport-level failure
(`Do` returned a nil response with a non-nil error) or a response with a
status code and a body. -/
inductive WireOutcome where
  | failure (e : GoError)
  | response (status : Nat) (body : BodyRead)
deriving DecidableEq

/-- The `(res, err)` contract of `do` together with the final state of the
output parameter `out`. -/
structure DoResult (α : Type) where
  res : Option Nat
  err : Option GoError
  out : α
deriving DecidableEq

/-- The single-attempt primitive `do` (src/client/http.go:433-503).
`reqFail` models a failure of the request-construction phase (JSON-encoding
the input or `http.NewRequestWithContext`); `wire` is the transport result;
`parseErrBody` models `json.Unmarshal` of the body into the structured
`Error` shape, returning the `Message` field on success; `decode` models
`json.Unmarshal` of the body into the output parameter, mapping the state of
`out` before the call to its state after the call plus the returned error
(`none` decode models a nil `out`, for which the body is not decoded);
`out0` is the state of the output parameter at the call (its zero value in
every caller). -/
def doRequest {α : Type} (reqFail : Option GoError) (wire : WireOutcome)
    (parseErrBody : String → Option String)
    (decode : Option (String → α → α × Option GoError)) (out0 : α) : DoResult α :=
  match reqFail with
  | some e => ⟨none, some e, out0⟩
  | none =>
    match wire with
    | .failure e => ⟨none, some e, out0⟩
    | .response status body =>
      if status = 204 then ⟨some status, none, out0⟩
      else
        match body with
        | .readErr e => ⟨some status, some e, out0⟩
        | .bytes b =>
          if 300 ≤ status then
            if b ≠ "" then
              match parseErrBody b with
              | some msg => ⟨some status, some (.domain status msg), out0⟩
              | none => ⟨some status, some (.domain status b), out0⟩
            else ⟨some status, some (.plain (statusText status)), out0⟩
          else
            match decode with
            | none => ⟨some status, none, out0⟩
            | some d =>
              let r := d b out0
              ⟨some status, r.2, r.1⟩

/-- A response object as `open` and `DownloadAgent` see it: a status code
and the live body stream handed to the caller. -/
structure HResponse where
  statusCode : Nat
  bodyStream : String
deriving DecidableEq

/-- The helper `open` (src/client/http.go:515-522): if the request cannot be
constructed it returns `(nil, err)`, otherwise it returns the result of
`c.client().Do(req)` unchanged (`doSend`). -/
def openRequest (reqFail : Option GoError)
    (doSend : Option HResponse × Option GoError) :
    Option HResponse × Option GoError :=
  match reqFail with
  | some e => (none, some e)
  | none => doSend

/-- What `DownloadAgent` does with the pair returned by `open`: `panics`
models the nil-pointer dereference `resp.Body` on an absent response. -/
inductive DownloadResult where
  | panics
  | ok (stream : String) (err : Option GoError)
deriving DecidableEq

/-- `DownloadAgent` (src/client/http.go:382-386): `resp, err := c.open(...)`
followed by `return resp.Body, err` with no nil check on `resp`. -/
def downloadAgent (reqFail : Option GoError)
    (doSend : Option HResponse × Option GoError) : DownloadResult :=
  match openRequest reqFail doSend with
  | (none, _) => .panics
  | (some r, err) => .ok r.bodyStream err

/-- The fields of `tls.Config` that `clientWithTLSConfig` sets.  Certificate
material and pools are abstract: a pool is the list of certificates it
holds. -/
structure TLSConfigM where
  insecureSkipVerify : Bool
  rootCAs : Option (List String)
  certificates : List String
deriving DecidableEq

/-- `clientWithTLSConfig` (src/client/http.go:170-191), restricted to the
TLS configuration it builds: start from `InsecureSkipVerify: skipverify`,
install `rootCAs` only when `skipverify` is false and a pool was supplied,
and attach the client certificate exactly when `mtlsEnabled`. -/
def clientWithTLSConfig (skipverify : Bool) (rootCAs : Option (List String))
    (mtlsEnabled : Bool) (cert : String) : TLSConfigM :=
  let config : TLSConfigM := ⟨skipverify, none, []⟩
  let config :=
    if skipverify = false ∧ rootCAs ≠ none then { config with rootCAs := rootCAs }
    else config
  if mtlsEnabled then { config with certificates := [cert] } else config

/-- One direct entry of the additional-certificates directory: its name and
the result of `os.ReadFile` (`none` models a read error). -/
structure DirEntry where
  name : String
  content : Option String
deriving DecidableEq

/-- `loadRootCAs` (src/client/http.go:130-167).  `parsePEM` models
`x509.CertPool.AppendCertsFromPEM`: the certificates parsed out of the PEM
data (the empty list models `ok == false`, upon which the file is skipped);
`systemPool` is the result of `x509.SystemCertPool` (`none` when
unavailable); `readDir` is the result of `os.ReadDir` (`none` models a
directory read error). -/
def loadRootCAs (parsePEM : String → List String) (systemPool : Option (List String))
    (additionalCertsDir : String) (readDir : Option (List DirEntry)) :
    Option (List String) :=
  if additionalCertsDir = "" then none
  else
    let rootCAs := match systemPool with
      | some p => p
      | none => []
    match readDir with
    | none => some rootCAs
    | some files =>
      some (files.foldl (fun pool f =>
        match f.content with
        | none => pool
        | some data => pool ++ parsePEM data) rootCAs)

/-- The certificates contributed by the directory entries, in directory
order: each readable entry contributes whatever parses out of its PEM data,
unreadable entries contribute nothing. -/
def parsedCerts (parsePEM : String → List String) : List DirEntry → List String
  | [] => []
  | f :: rest =>
    (match f.content with
      | none => []
      | some data => parsePEM data) ++ parsedCerts parsePEM rest

namespace XXH64

def M64 : Nat := 2 ^ 64

def prime1 : Nat := 11400714785074694791

def prime2 : Nat := 14029467366897019727

def prime3 : Nat := 1609587929392839161

def prime4 : Nat := 9650029242287828579

def prime5 : Nat := 2870177450012600261

/-- 64-bit left rotation. -/
def rotl (x r : Nat) : Nat :=
  (((x % M64) <<< r) % M64) ||| ((x % M64) >>> (64 - r))

/-- The xxHash64 lane round: `acc = rotl(acc + input * prime2, 31) * prime1`. -/
def round (acc input : Nat) : Nat :=
  (rotl ((acc + input * prime2) % M64) 31 * prime1) % M64

/-- Merging one lane accumulator into the digest for inputs of 32 bytes or
more. -/
def mergeRound (acc v : Nat) : Nat :=
  ((acc ^^^ round 0 v) * prime1 + prime4) % M64

/-- Little-endian integer value of a byte list (first byte least
significant). -/
def leBytes (bs : List Nat) : Nat :=
  bs.foldr (fun b acc => b + 256 * acc) 0

/-- Consume `n` 32-byte stripes, updating the four lane accumulators, and
return the accumulators and the remaining bytes. -/
def stripes : Nat → List Nat → Nat × Nat × Nat × Nat → (Nat × Nat × Nat × Nat) × List Nat
  | 0, bs, v => (v, bs)
  | n + 1, bs, (v1, v2, v3, v4) =>
    let v1 := round v1 (leBytes (bs.take 8))
    let v2 := round v2 (leBytes ((bs.drop 8).take 8))
    let v3 := round v3 (leBytes ((bs.drop 16).take 8))
    let v4 := round v4 (leBytes ((bs.drop 24).take 8))
    stripes n (bs.drop 32) (v1, v2, v3, v4)

/-- The final avalanche. -/
def avalanche (h : Nat) : Nat :=
  let h := ((h ^^^ (h >>> 33)) * prime2) % M64
  let h := ((h ^^^ (h >>> 29)) * prime3) % M64
  h ^^^ (h >>> 32)

/-- Consume the at most 3 remaining single bytes, then avalanche. -/
def finishBytes (h : Nat) : List Nat → Nat
  | [] => avalanche h
  | b :: rest =>
    finishBytes ((rotl (h ^^^ ((b * prime5) % M64)) 11 * prime1) % M64) rest

/-- Consume the remaining (fewer than 32) bytes: 8-byte words first, then
at most one 4-byte word, then single bytes. -/
def finish (h : Nat) : List Nat → Nat
  | b0 :: b1 :: b2 :: b3 :: b4 :: b5 :: b6 :: b7 :: rest =>
    let k := round 0 (leBytes [b0, b1, b2, b3, b4, b5, b6, b7])
    finish ((rotl (h ^^^ k) 27 * prime1 + prime4) % M64) rest
  | b0 :: b1 :: b2 :: b3 :: rest =>
    let h := h ^^^ ((leBytes [b0, b1, b2, b3] * prime1) % M64)
    finishBytes ((rotl h 23 * prime2 + prime3) % M64) rest
  | rest => finishBytes h rest

/-- `xxhash.Sum64` with seed 0 on a byte list. -/
def sum64 (bytes : List Nat) : Nat :=
  let len := bytes.length
  if 32 ≤ len then
    let start : Nat × Nat × Nat × Nat :=
      ((prime1 + prime2) % M64, prime2, 0, M64 - prime1)
    match stripes (len / 32) bytes start with
    | ((v1, v2, v3, v4), rest) =>
      let h := (rotl v1 1 + rotl v2 7 + rotl v3 12 + rotl v4 18) % M64
      let h := mergeRound h v1
      let h := mergeRound h v2
      let h := mergeRound h v3
      let h := mergeRound h v4
      finish ((h + len) % M64) rest
  else
    finish ((prime5 + len) % M64) bytes

end XXH64

/-- UTF-8 encoding of one character, as Go produces for `[]byte(s)`. -/
def utf8Char (c : Char) : List Nat :=
  let n := c.toNat
  if n < 0x80 then [n]
  else if n < 0x800 then
    [0xC0 ||| (n >>> 6), 0x80 ||| (n &&& 0x3F)]
  else if n < 0x10000 then
    [0xE0 ||| (n >>> 12), 0x80 ||| ((n >>> 6) &&& 0x3F), 0x80 ||| (n &&& 0x3F)]
  else
    [0xF0 ||| (n >>> 18), 0x80 ||| ((n >>> 12) &&& 0x3F),
      0x80 ||| ((n >>> 6) &&& 0x3F), 0x80 ||| (n &&& 0x3F)]

/-- The bytes of a Go string (`[]byte(s)`). -/
def strBytes (s : String) : List Nat :=
  s.data.foldr (fun c acc => utf8Char c ++ acc) []

/-- `chrysalis/types.FilehashPair` as used by the `uint64` variant of
`ChainChecksum`: a path and its 64-bit checksum (a `uint64`, modelled as a
`Nat` below `2 ^ 64`). -/
structure FilehashPair where
  path : String
  checksum : Nat
deriving DecidableEq

/-- `ChainChecksum` (src/chrysalis/utils/utils.go:28-36, `uint64` variant):
starting from 0, XOR in `xxhash.Sum64([]byte(path + ":" +
strconv.FormatUint(checksum, 10)))` for every pair, in order. -/
def ChainChecksum (chain : List FilehashPair) : Nat :=
  chain.foldl
    (fun checksum pair =>
      checksum ^^^
        XXH64.sum64 (strBytes (pair.path ++ ":" ++ toString pair.checksum)))
    0

/-- `strconv.FormatInt(i, 10)`: decimal with a leading minus sign for
negative values. -/
def formatInt (i : Int) : String :=
  if i < 0 then "-" ++ toString i.natAbs else toString i.natAbs

/-- Reinterpretation of a `uint64` value as Go `int64` (two's complement). -/
def toInt64 (n : Nat) : Int :=
  if n < 2 ^ 63 then (n : Int) else (n : Int) - 2 ^ 64

/-- `ChainChecksum` (src/chrysalis/utils/utils.go:10-18, `int64` variant):
the same XOR chaining over `int64` checksums, the `uint64` accumulator
reinterpreted as `int64` at the end. -/
def ChainChecksumInt (chain : List (String × Int)) : Int :=
  toInt64 (chain.foldl
    (fun checksum pair =>
      checksum ^^^ XXH64.sum64 (strBytes (pair.1 ++ ":" ++ formatInt pair.2)))
    0)

/-- Modelled from the spec: the order-sensitive checksum-chaining variant
(`ChainChecksum(sourcePaths []string, fileChecksums map[string]uint64)
uint64`), whose implementation is not under src — only its tests (in
src/README.md) and the spec describe it: concatenate `"path:checksum"` for
every path present in the mapping (others silently skipped) in the given
order, join with a separator, hash the result with the fixed
non-cryptographic 64-bit hash (xxHash64); empty input or no matches yields
the fixed "no data" sentinel 0. -/
def ChainChecksumOrdered (sourcePaths : List String)
    (fileChecksums : List (String × Nat)) : Nat :=
  let parts := sourcePaths.filterMap fun p =>
    (fileChecksums.lookup p).map fun c => p ++ ":" ++ toString c
  if parts = [] then 0
  else XXH64.sum64 (strBytes (String.intercalate "," parts))

/-- Scan `(value, message)` pairs in order and return the message paired
with the first empty value, if any. -/
def firstMissing : List (String × String) → Option String
  | [] => none
  | (v, msg) :: rest => if v = "" then some msg else firstMissing rest

/-- The checks of `validateTiArgs`, in source order with the literal
messages. -/
def tiChecks (c : HTTPClient) : List (String × String) :=
  [(c.endpoint, "ti endpoint is not set"), (c.token, "ti token is not set")]

/-- The checks of `validateBasicArgs`, in source order. -/
def basicChecks (c : HTTPClient) : List (String × String) :=
  [(c.accountID, "accountID is not set"), (c.orgID, "orgID is not set"),
    (c.projectID, "projectID is not set"), (c.pipelineID, "pipelineID is not set")]

/-- The build/stage checks shared by the write-type validators. -/
def buildStageChecks (c : HTTPClient) : List (String × String) :=
  [(c.buildID, "buildID is not set"), (c.stageID, "stageID is not set")]

def writeChecks (c : HTTPClient) (stepID report : String) : List (String × String) :=
  tiChecks c ++ basicChecks c ++ buildStageChecks c ++
    [(stepID, "stepID is not set"), (report, "report is not set")]

def writeSavingsChecks (c : HTTPClient) (stepID : String) : List (String × String) :=
  tiChecks c ++ basicChecks c ++ buildStageChecks c ++ [(stepID, "stepID is not set")]

def downloadLinkChecks (c : HTTPClient) (language : String) : List (String × String) :=
  tiChecks c ++ [(language, "language is not set")]

def selectTestsChecks (c : HTTPClient) (stepID source target : String) :
    List (String × String) :=
  tiChecks c ++ basicChecks c ++ buildStageChecks c ++
    [(stepID, "stepID is not set"), (source, "source branch is not set"),
      (target, "target branch is not set")]

def commitInfoChecks (c : HTTPClient) (stepID branch : String) :
    List (String × String) :=
  tiChecks c ++ basicChecks c ++ buildStageChecks c ++
    [(stepID, "stepID is not set"), (branch, "source branch is not set")]

def scopeChecks (c : HTTPClient) : List (String × String) :=
  tiChecks c ++ basicChecks c

/-- Is this (optional) error a structured `client.Error` (the DomainError
carrying a status code)? -/
def isDomainErr : Option GoError → Bool
  | some (.domain _ _) => true
  | _ => false

/-- The output shape of a test-selection response, reduced to two fields for
the decode-failure scenario. -/
structure SelectTestsOut where
  tests : List String
  total : Nat
deriving DecidableEq

/-- Modelled behavior of `encoding/json.Unmarshal` on the concrete body
`{"tests":["TestA"],"total":"oops"}` decoded into `SelectTestsOut`: the
`tests` field is populated, then the type mismatch on `total` is reported
as an `UnmarshalTypeError`; per the documented contract ("Unmarshal ...
skips that field and completes the unmarshalling as best it can"), the
output is left partially populated and a non-nil error is returned.  Any
other body is decoded without error and without effect here. -/
def unmarshalSelectPartial : String → SelectTestsOut → SelectTestsOut × Option GoError :=
  fun b out =>
    if b = "\x7b\"tests\":[\"TestA\"],\"total\":\"oops\"\x7d" then
      ({ out with tests := ["TestA"] },
        some (.decodeFail "json: cannot unmarshal string into Go value of type int"))
    else (out, none)

/-!
## Theorems

Every definition above embeds a piece of the source; the theorems below
settle the specified properties against those definitions.
-/

example :
    retry true 0 0 [⟨⟨some 503, some (.domain 503 "oops")⟩, none, some 1⟩,
      ⟨⟨some 200, none⟩, none, some 2⟩] = .done (some 200) none 2 1 := by decide

example :
    retry false 0 0 [⟨⟨some 503, some (.domain 503 "oops")⟩, none, some 1⟩,
      ⟨⟨some 200, none⟩, none, some 2⟩] =
      .done (some 503) (some (.domain 503 "oops")) 1 0 := by decide

example :
    retry true 0 0 [⟨⟨some 500, none⟩, none, none⟩] = .done none none 1 0 := by
  decide

example : commitInfoOp cFull "step" "" = .error "source branch is not set" := rfl

example : getTestTimesOp cFull = .ok (.retryWith false true 600) := rfl

theorem loadRootCAs_foldl (parsePEM : String → List String)
    (files : List DirEntry) (init : List String) :
    files.foldl (fun pool f =>
      match f.content with
      | none => pool
      | some data => pool ++ parsePEM data) init = init ++ parsedCerts parsePEM files := by
  induction files generalizing init with
  | nil => simp [parsedCerts]
  | cons f rest ih =>
    cases h : f.content <;>
      simp [List.foldl, parsedCerts, h, ih, List.append_assoc]

theorem xxh64_vector_empty : XXH64.sum64 (strBytes "") = 0xEF46DB3751D8E999 := by
  decide

theorem xxh64_vector_a : XXH64.sum64 (strBytes "a") = 0xD24EC4F1A98C6E5B := by
  decide

theorem xxh64_vector_abc : XXH64.sum64 (strBytes "abc") = 0x44BC2CF5AD770999 := by
  decide

theorem xxh64_vector_long :
    XXH64.sum64 (strBytes "Nobody inspects the spammish repetition") =
      0xFBCEA83C8A378BF1 := by
  decide

example : ChainChecksum [] = 0 := rfl

example :
    ChainChecksumOrdered ["a", "b"] [("a", 1), ("b", 2)] ≠
      ChainChecksumOrdered ["b", "a"] [("a", 1), ("b", 2)] := by decide

example :
    ChainChecksum [⟨"a", 1⟩, ⟨"b", 2⟩] = ChainChecksum [⟨"b", 2⟩, ⟨"a", 1⟩] := by
  decide

theorem retry_ctx (b : Bool) (a s : Nat) (o : RetryOutcome) (bo : Option Nat)
    (rest : List IterEnv) (cerr : GoError) :
    retry b a s (⟨o, some cerr, bo⟩ :: rest) = .done o.res (some cerr) (a + 1) s :=
  rfl

theorem retry_5xx_go (b : Bool) (a s status : Nat) (err : Option GoError)
    (d : Nat) (rest : List IterEnv) (h5 : 500 ≤ status) (hb : b = true) :
    retry b a s (⟨⟨some status, err⟩, none, some d⟩ :: rest) =
      retry b (a + 1) (s + 1) rest := by
  subst hb
  show (if 500 ≤ status ∧ (true : Bool) then retry true (a + 1) (s + 1) rest
    else .done (some status) err (a + 1) s) = retry true (a + 1) (s + 1) rest
  rw [if_pos ⟨h5, rfl⟩]

theorem retry_5xx_stop (b : Bool) (a s status : Nat) (err : Option GoError)
    (rest : List IterEnv) (h5 : 500 ≤ status) (hb : b = true) :
    retry b a s (⟨⟨some status, err⟩, none, none⟩ :: rest) =
      .done none err (a + 1) s := by
  subst hb
  show (if 500 ≤ status ∧ (true : Bool) then RetryResult.done none err (a + 1) s
    else .done (some status) err (a + 1) s) = .done none err (a + 1) s
  rw [if_pos ⟨h5, rfl⟩]

theorem retry_res_done (b : Bool) (a s status : Nat) (err : Option GoError)
    (bo : Option Nat) (rest : List IterEnv)
    (hneg : ¬ (500 ≤ status ∧ b = true)) :
    retry b a s (⟨⟨some status, err⟩, none, bo⟩ :: rest) =
      .done (some status) err (a + 1) s := by
  simp only [retry]
  rw [if_neg hneg]

theorem retry_transport_go (b : Bool) (a s : Nat) (e : GoError) (d : Nat)
    (rest : List IterEnv) :
    retry b a s (⟨⟨none, some e⟩, none, some d⟩ :: rest) =
      retry b (a + 1) (s + 1) rest :=
  rfl

theorem retry_transport_stop (b : Bool) (a s : Nat) (e : GoError)
    (rest : List IterEnv) :
    retry b a s (⟨⟨none, some e⟩, none, none⟩ :: rest) =
      .done none (some e) (a + 1) s :=
  rfl

theorem retry_nil_done (b : Bool) (a s : Nat) (bo : Option Nat)
    (rest : List IterEnv) :
    retry b a s (⟨⟨none, none⟩, none, bo⟩ :: rest) = .done none none (a + 1) s :=
  rfl

theorem retry_go_of_cond (b : Bool) (a s : Nat) (o : RetryOutcome) (d : Nat)
    (rest : List IterEnv) (hcond : retryCond b o) :
    retry b a s (⟨o, none, some d⟩ :: rest) = retry b (a + 1) (s + 1) rest := by
  obtain ⟨res, err⟩ := o
  rcases hcond with ⟨status, hres, h5, hb⟩ | ⟨hres, herr⟩
  · cases hres
    exact retry_5xx_go b a s status err d rest h5 hb
  · cases hres
    obtain ⟨e, he⟩ := Option.ne_none_iff_exists.mp herr
    cases he
    exact retry_transport_go b a s e d rest

theorem retry_stop_of_cond (b : Bool) (a s : Nat) (o : RetryOutcome)
    (rest : List IterEnv) (hcond : retryCond b o) :
    retry b a s (⟨o, none, none⟩ :: rest) = .done none o.err (a + 1) s := by
  obtain ⟨res, err⟩ := o
  rcases hcond with ⟨status, hres, h5, hb⟩ | ⟨hres, herr⟩
  · cases hres
    exact retry_5xx_stop b a s status err rest h5 hb
  · cases hres
    obtain ⟨e, he⟩ := Option.ne_none_iff_exists.mp herr
    cases he
    exact retry_transport_stop b a s e rest

theorem retry_done_of_not_cond (b : Bool) (a s : Nat) (o : RetryOutcome)
    (bo : Option Nat) (rest : List IterEnv) (hcond : ¬ retryCond b o) :
    retry b a s (⟨o, none, bo⟩ :: rest) = .done o.res o.err (a + 1) s := by
  obtain ⟨res, err⟩ := o
  cases res with
  | some status =>
    exact retry_res_done b a s status err bo rest fun hc =>
      hcond (Or.inl ⟨status, rfl, hc.1, hc.2⟩)
  | none =>
    cases err with
    | some e => exact absurd (Or.inr ⟨rfl, Option.some_ne_none e⟩) hcond
    | none => exact retry_nil_done b a s bo rest

theorem doOutcomeInv_err_ne_none (b : Bool) (o : RetryOutcome)
    (hinv : doOutcomeInv o) (hcond : retryCond b o) : o.err ≠ none := by
  rcases hcond with ⟨status, hres, h5, _⟩ | ⟨hres, herr⟩
  · exact hinv.2 status hres (le_trans (by norm_num) h5)
  · exact herr

theorem firstMissing_of_first_empty (pre : List (String × String)) (v msg : String)
    (post : List (String × String)) (hpre : ∀ p ∈ pre, p.1 ≠ "") (hv : v = "") :
    firstMissing (pre ++ (v, msg) :: post) = some msg := by
  induction pre with
  | nil => simp [firstMissing, hv]
  | cons p rest ih =>
    obtain ⟨pv, pmsg⟩ := p
    have hne : pv ≠ "" := hpre (pv, pmsg) (List.mem_cons_self _ _)
    simp only [List.cons_append, firstMissing]
    rw [if_neg hne]
    exact ih fun q hq => hpre q (List.mem_cons_of_mem _ hq)

theorem validateTiArgs_eq (c : HTTPClient) :
    validateTiArgs c = firstMissing (tiChecks c) := rfl

theorem validateBasicArgs_eq (c : HTTPClient) :
    validateBasicArgs c = firstMissing (basicChecks c) := rfl

set_option maxHeartbeats 2000000 in
theorem validateWriteArgs_eq (c : HTTPClient) (stepID report : String) :
    validateWriteArgs c stepID report = firstMissing (writeChecks c stepID report) := by
  simp only [validateWriteArgs, validateTiArgs, validateBasicArgs, writeChecks,
    tiChecks, basicChecks, buildStageChecks, List.cons_append, List.nil_append,
    firstMissing]
  split_ifs <;> rfl

theorem validateWriteSavingsArgs_eq (c : HTTPClient) (stepID : String) :
    validateWriteSavingsArgs c stepID =
      firstMissing (writeSavingsChecks c stepID) := by
  simp only [validateWriteSavingsArgs, validateTiArgs, validateBasicArgs,
    writeSavingsChecks, tiChecks, basicChecks, buildStageChecks,
    List.cons_append, List.nil_append, firstMissing]
  split_ifs <;> rfl

theorem validateDownloadLinkArgs_eq (c : HTTPClient) (language : String) :
    validateDownloadLinkArgs c language =
      firstMissing (downloadLinkChecks c language) := by
  simp only [validateDownloadLinkArgs, validateTiArgs, downloadLinkChecks,
    tiChecks, List.cons_append, List.nil_append, firstMissing]
  split_ifs <;> rfl

set_option maxHeartbeats 2000000 in
theorem validateSelectTestsArgs_eq (c : HTTPClient) (stepID source target : String) :
    validateSelectTestsArgs c stepID source target =
      firstMissing (selectTestsChecks c stepID source target) := by
  simp only [validateSelectTestsArgs, validateTiArgs, validateBasicArgs,
    selectTestsChecks, tiChecks, basicChecks, buildStageChecks,
    List.cons_append, List.nil_append, firstMissing]
  split_ifs <;> rfl

set_option maxHeartbeats 2000000 in
theorem validateUploadCgArgs_eq (c : HTTPClient) (stepID source target : String) :
    validateUploadCgArgs c stepID source target =
      firstMissing (selectTestsChecks c stepID source target) := by
  simp only [validateUploadCgArgs, validateTiArgs, validateBasicArgs,
    selectTestsChecks, tiChecks, basicChecks, buildStageChecks,
    List.cons_append, List.nil_append, firstMissing]
  split_ifs <;> rfl

theorem validateGetTestTimesArgs_eq (c : HTTPClient) :
    validateGetTestTimesArgs c = firstMissing (scopeChecks c) := by
  simp only [validateGetTestTimesArgs, validateTiArgs, validateBasicArgs,
    scopeChecks, tiChecks, basicChecks, List.cons_append, List.nil_append,
    firstMissing]
  split_ifs <;> rfl

set_option maxHeartbeats 2000000 in
theorem validateCommitInfoArgs_eq (c : HTTPClient) (stepID branch : String) :
    validateCommitInfoArgs c stepID branch =
      firstMissing (commitInfoChecks c stepID branch) := by
  simp only [validateCommitInfoArgs, validateTiArgs, validateBasicArgs,
    commitInfoChecks, tiChecks, basicChecks, buildStageChecks,
    List.cons_append, List.nil_append, firstMissing]
  split_ifs <;> rfl

theorem validateMLSelectTestArgs_eq (c : HTTPClient) :
    validateMLSelectTestArgs c = firstMissing (scopeChecks c) := by
  simp only [validateMLSelectTestArgs, validateTiArgs, validateBasicArgs,
    scopeChecks, tiChecks, basicChecks, List.cons_append, List.nil_append,
    firstMissing]
  split_ifs <;> rfl

theorem writeOp_error (c : HTTPClient) (stepID report msg : String)
    (h : validateWriteArgs c stepID report = some msg) :
    writeOp c stepID report = .error msg := by
  unfold writeOp; rw [h]

theorem downloadLinkOp_error (c : HTTPClient) (language msg : String)
    (h : validateDownloadLinkArgs c language = some msg) :
    downloadLinkOp c language = .error msg := by
  unfold downloadLinkOp; rw [h]

theorem selectTestsOp_error (c : HTTPClient) (stepID source target msg : String)
    (h : validateSelectTestsArgs c stepID source target = some msg) :
    selectTestsOp c stepID source target = .error msg := by
  unfold selectTestsOp; rw [h]

theorem uploadCgOp_error (c : HTTPClient) (stepID source target msg : String)
    (h : validateUploadCgArgs c stepID source target = some msg) :
    uploadCgOp c stepID source target = .error msg := by
  unfold uploadCgOp uploadCGInternal; rw [h]

theorem uploadCgFailedTestOp_error (c : HTTPClient) (stepID source target msg : String)
    (h : validateUploadCgArgs c stepID source target = some msg) :
    uploadCgFailedTestOp c stepID source target = .error msg := by
  unfold uploadCgFailedTestOp uploadCGInternal; rw [h]

theorem uploadCgV2Op_error (c : HTTPClient) (payload : CgPayload) (msg : String)
    (h : validateTiArgs c = some msg) :
    uploadCgV2Op c payload = .error msg := by
  unfold uploadCgV2Op; rw [h]

theorem getTestTimesOp_error (c : HTTPClient) (msg : String)
    (h : validateGetTestTimesArgs c = some msg) :
    getTestTimesOp c = .error msg := by
  unfold getTestTimesOp; rw [h]

theorem commitInfoOp_error (c : HTTPClient) (stepID branch msg : String)
    (h : validateCommitInfoArgs c stepID branch = some msg) :
    commitInfoOp c stepID branch = .error msg := by
  unfold commitInfoOp; rw [h]

theorem mlSelectTestsOp_error (c : HTTPClient) (msg : String)
    (h : validateMLSelectTestArgs c = some msg) :
    mlSelectTestsOp c = .error msg := by
  unfold mlSelectTestsOp; rw [h]

theorem summaryOp_error (c : HTTPClient) (msg : String)
    (h : validateMLSelectTestArgs c = some msg) :
    summaryOp c = .error msg := by
  unfold summaryOp; rw [h]

theorem getTestCasesOp_error (c : HTTPClient) (msg : String)
    (h : validateMLSelectTestArgs c = some msg) :
    getTestCasesOp c = .error msg := by
  unfold getTestCasesOp; rw [h]

theorem writeSavingsOp_error (c : HTTPClient) (stepID msg : String)
    (h : validateWriteSavingsArgs c stepID = some msg) :
    writeSavingsOp c stepID = .error msg := by
  unfold writeSavingsOp; rw [h]

/-- C3 counterexample: the claim states that the validation message is the
literal lower-case string `"<fieldName> is not set"` naming exactly the
missing field, with only the two base-pair exceptions.  `CommitInfo` with an
empty `branch` argument (all other required fields populated) reports
"source branch is not set" — not the name of its `branch` field — and the
message for an empty `accountID` is "accountID is not set", which is not a
lower-case string. -/
theorem validation_message_counterexample :
    commitInfoOp cFull "step1" "" = .error "source branch is not set" ∧
      "source branch is not set" ≠ "branch is not set" ∧
      validateBasicArgs ⟨"e", "t", "", "org", "proj", "pipe", "b1", "stg", "r",
        "sh", "l"⟩ = some "accountID is not set" ∧
      ("accountID is not set").data.any Char.isUpper = true :=
  ⟨rfl, by decide, rfl, by decide⟩

/-- C3 (amended): every public operation validates before any network
activity, and with exactly one required field empty it returns the
validation error `"<fieldName> is not set"` (field names in their camelCase
source spelling, so not all lower-case; base-pair exceptions
"ti endpoint is not set" / "ti token is not set"; and the `branch` argument
of `CommitInfo` is reported as "source branch is not set").  Formally: each
validator equals the first-missing-value scan of its fixed, ordered
checklist of `(field, message)` pairs, the scan halts on the first empty
value, and each facade surfaces the validation error verbatim without
reaching the request executor. -/
theorem validation_first_missing_field :
    (∀ c, validateTiArgs c = firstMissing (tiChecks c)) ∧
    (∀ c, validateBasicArgs c = firstMissing (basicChecks c)) ∧
    (∀ c stepID report,
      validateWriteArgs c stepID report = firstMissing (writeChecks c stepID report)) ∧
    (∀ c stepID,
      validateWriteSavingsArgs c stepID = firstMissing (writeSavingsChecks c stepID)) ∧
    (∀ c language,
      validateDownloadLinkArgs c language =
        firstMissing (downloadLinkChecks c language)) ∧
    (∀ c stepID source target,
      validateSelectTestsArgs c stepID source target =
        firstMissing (selectTestsChecks c stepID source target)) ∧
    (∀ c stepID source target,
      validateUploadCgArgs c stepID source target =
        firstMissing (selectTestsChecks c stepID source target)) ∧
    (∀ c, validateGetTestTimesArgs c = firstMissing (scopeChecks c)) ∧
    (∀ c stepID branch,
      validateCommitInfoArgs c stepID branch =
        firstMissing (commitInfoChecks c stepID branch)) ∧
    (∀ c, validateMLSelectTestArgs c = firstMissing (scopeChecks c)) ∧
    (∀ pre v msg post, (∀ p ∈ pre, p.1 ≠ "") → v = "" →
      firstMissing (pre ++ (v, msg) :: post) = some msg) ∧
    (∀ c stepID report msg, validateWriteArgs c stepID report = some msg →
      writeOp c stepID report = .error msg) ∧
    (∀ c language msg, validateDownloadLinkArgs c language = some msg →
      downloadLinkOp c language = .error msg) ∧
    (∀ c stepID source target msg,
      validateSelectTestsArgs c stepID source target = some msg →
        selectTestsOp c stepID source target = .error msg) ∧
    (∀ c stepID source target msg,
      validateUploadCgArgs c stepID source target = some msg →
        uploadCgOp c stepID source target = .error msg) ∧
    (∀ c stepID source target msg,
      validateUploadCgArgs c stepID source target = some msg →
        uploadCgFailedTestOp c stepID source target = .error msg) ∧
    (∀ c payload msg, validateTiArgs c = some msg →
      uploadCgV2Op c payload = .error msg) ∧
    (∀ c msg, validateGetTestTimesArgs c = some msg →
      getTestTimesOp c = .error msg) ∧
    (∀ c stepID branch msg, validateCommitInfoArgs c stepID branch = some msg →
      commitInfoOp c stepID branch = .error msg) ∧
    (∀ c msg, validateMLSelectTestArgs c = some msg →
      mlSelectTestsOp c = .error msg) ∧
    (∀ c msg, validateMLSelectTestArgs c = some msg →
      summaryOp c = .error msg) ∧
    (∀ c msg, validateMLSelectTestArgs c = some msg →
      getTestCasesOp c = .error msg) ∧
    (∀ c stepID msg, validateWriteSavingsArgs c stepID = some msg →
      writeSavingsOp c stepID = .error msg) :=
  ⟨validateTiArgs_eq, validateBasicArgs_eq, validateWriteArgs_eq,
    validateWriteSavingsArgs_eq, validateDownloadLinkArgs_eq,
    validateSelectTestsArgs_eq, validateUploadCgArgs_eq,
    validateGetTestTimesArgs_eq, validateCommitInfoArgs_eq,
    validateMLSelectTestArgs_eq, firstMissing_of_first_empty, writeOp_error,
    downloadLinkOp_error, selectTestsOp_error, uploadCgOp_error,
    uploadCgFailedTestOp_error, uploadCgV2Op_error, getTestTimesOp_error,
    commitInfoOp_error, mlSelectTestsOp_error, summaryOp_error,
    getTestCasesOp_error, writeSavingsOp_error⟩

/-- Witness for C3: the halting scan on a concrete checklist whose second
entry is the only empty one, and `Write` on a client whose only empty
required field is `stageID`. -/
theorem validation_first_missing_field_witness :
    firstMissing ([("v1", "m1")] ++ ("", "m2") :: [("", "m3")]) = some "m2" ∧
      writeOp ⟨"https://ti.example.com", "tok", "acc", "org", "proj", "pipe",
        "b1", "", "repo", "sha1", "link"⟩ "step1" "junit" =
        .error "stageID is not set" :=
  ⟨validation_first_missing_field.2.2.2.2.2.2.2.2.2.2.1 [("v1", "m1")] "" "m2"
      [("", "m3")] (by decide) rfl,
    validation_first_missing_field.2.2.2.2.2.2.2.2.2.2.2.1
      ⟨"https://ti.example.com", "tok", "acc", "org", "proj", "pipe", "b1", "",
        "repo", "sha1", "link"⟩ "step1" "junit" "stageID is not set" rfl⟩

/-- C4 counterexample: the claim states that for every response with status
`>= 300`, `do` returns "a DomainError carrying the response's status code"
also "when the body is empty".  For status 404 and an empty body, the code
returns `errors.New(http.StatusText(404))` — a plain error carrying only
the text "Not Found" and no status code, not a DomainError. -/
theorem do_empty_body_counterexample :
    (doRequest none (.response 404 (.bytes "")) (fun _ => none) none ()).err =
        some (.plain "Not Found") ∧
      isDomainErr (doRequest none (.response 404 (.bytes "")) (fun _ => none)
        none ()).err = false :=
  ⟨rfl, rfl⟩

/-- C4 (amended): for every response with status `>= 300` whose body was
read, `do` returns a non-nil error; when the body is non-empty it is a
DomainError carrying the status code and the best-available message
(the structured payload message when the body parses as the structured
error shape, the raw body text otherwise), and when the body is empty it is
a plain error whose message is the platform's canonical status phrase,
carrying no status code. -/
theorem do_error_construction :
    (∀ {α : Type} (status : Nat) (b : String) (parse : String → Option String)
        (msg : String) (decode : Option (String → α → α × Option GoError))
        (out0 : α),
      300 ≤ status → b ≠ "" → parse b = some msg →
        doRequest none (.response status (.bytes b)) parse decode out0 =
          ⟨some status, some (.domain status msg), out0⟩) ∧
    (∀ {α : Type} (status : Nat) (b : String) (parse : String → Option String)
        (decode : Option (String → α → α × Option GoError)) (out0 : α),
      300 ≤ status → b ≠ "" → parse b = none →
        doRequest none (.response status (.bytes b)) parse decode out0 =
          ⟨some status, some (.domain status b), out0⟩) ∧
    (∀ {α : Type} (status : Nat) (parse : String → Option String)
        (decode : Option (String → α → α × Option GoError)) (out0 : α),
      300 ≤ status →
        doRequest none (.response status (.bytes "")) parse decode out0 =
          ⟨some status, some (.plain (statusText status)), out0⟩) ∧
    (∀ {α : Type} (status : Nat) (body : BodyRead)
        (parse : String → Option String)
        (decode : Option (String → α → α × Option GoError)) (out0 : α),
      300 ≤ status →
        (doRequest none (.response status body) parse decode out0).err ≠ none) := by
  refine ⟨?_, ?_, ?_, ?_⟩
  · intro α status b parse msg decode out0 h300 hb hparse
    simp only [doRequest]
    rw [if_neg (by omega : ¬ status = 204), if_pos h300, if_pos hb, hparse]
  · intro α status b parse decode out0 h300 hb hparse
    simp only [doRequest]
    rw [if_neg (by omega : ¬ status = 204), if_pos h300, if_pos hb, hparse]
  · intro α status parse decode out0 h300
    simp only [doRequest]
    rw [if_neg (by omega : ¬ status = 204), if_pos h300,
      if_neg (fun h => h rfl : ¬ ("" ≠ ""))]
  · intro α status body parse decode out0 h300
    cases body with
    | readErr e =>
      simp only [doRequest]
      rw [if_neg (by omega : ¬ status = 204)]
      exact Option.some_ne_none e
    | bytes b =>
      simp only [doRequest]
      rw [if_neg (by omega : ¬ status = 204), if_pos h300]
      by_cases hb : b = ""
      · subst hb
        rw [if_neg (fun h => h rfl : ¬ ("" ≠ ""))]
        exact Option.some_ne_none _
      · rw [if_pos hb]
        cases parse b <;> exact Option.some_ne_none _

/-- Witness for C4: a 502 with a structured body, a 400 with an unparsable
body, a 503 with an empty body, and a 500 whose body read failed. -/
theorem do_error_construction_witness :
    doRequest none (.response 502 (.bytes "\x7b\"message\":\"bad\"\x7d"))
        (fun _ => some "bad") none () =
      ⟨some 502, some (.domain 502 "bad"), ()⟩ ∧
    doRequest none (.response 400 (.bytes "oops")) (fun _ => none) none () =
      ⟨some 400, some (.domain 400 "oops"), ()⟩ ∧
    doRequest none (.response 503 (.bytes "")) (fun _ => none) none () =
      ⟨some 503, some (.plain "Service Unavailable"), ()⟩ ∧
    (doRequest none (.response 500 (.readErr (.transport "eof"))) (fun _ => none)
      none ()).err ≠ none :=
  ⟨do_error_construction.1 502 "\x7b\"message\":\"bad\"\x7d" (fun _ => some "bad")
      "bad" none () (by decide) (by decide) rfl,
    do_error_construction.2.1 400 "oops" (fun _ => none) none () (by decide)
      (by decide) rfl,
    by
      have h := do_error_construction.2.2.1 503 (fun _ => (none : Option String))
        (none : Option (String → Unit → Unit × Option GoError)) () (by decide)
      rw [h]; rfl,
    do_error_construction.2.2.2 500 (.readErr (.transport "eof")) (fun _ => none)
      none () (by decide)⟩

/-- C5 counterexample: the claim states that any call returning a non-nil
error leaves the output in its zero state "including when the response
status is < 300 but the body fails to decode".  On a 200 response whose
body partially decodes before a type mismatch, `do` returns the decode
error together with the partially populated output: nothing in the code
resets `out` on a decode failure. -/
theorem do_decode_partial_out_counterexample :
    doRequest none
        (.response 200 (.bytes "\x7b\"tests\":[\"TestA\"],\"total\":\"oops\"\x7d"))
        (fun _ => none) (some unmarshalSelectPartial) ⟨[], 0⟩ =
      ⟨some 200,
        some (.decodeFail "json: cannot unmarshal string into Go value of type int"),
        ⟨["TestA"], 0⟩⟩ ∧
      SelectTestsOut.mk ["TestA"] 0 ≠ ⟨[], 0⟩ :=
  ⟨by decide, by decide⟩

/-- C5 (amended): on every error path other than a decode failure —
request-construction failure, transport failure, any response with status
`>= 300`, a body-read failure, or a call that expects no output — the
output parameter keeps the state it was handed in (its zero value at every
call site); on a 2xx response with a body and an expected output, the
output and error are exactly whatever the JSON decoder leaves, so a decoder
that populates fields before failing hands back a non-zero output together
with a non-nil error. -/
theorem do_out_untouched_on_error_paths :
    (∀ {α : Type} (e : GoError) (wire : WireOutcome)
        (parse : String → Option String)
        (decode : Option (String → α → α × Option GoError)) (out0 : α),
      (doRequest (some e) wire parse decode out0).out = out0) ∧
    (∀ {α : Type} (e : GoError) (parse : String → Option String)
        (decode : Option (String → α → α × Option GoError)) (out0 : α),
      (doRequest none (.failure e) parse decode out0).out = out0) ∧
    (∀ {α : Type} (status : Nat) (body : BodyRead)
        (parse : String → Option String)
        (decode : Option (String → α → α × Option GoError)) (out0 : α),
      300 ≤ status →
        (doRequest none (.response status body) parse decode out0).out = out0) ∧
    (∀ {α : Type} (status : Nat) (e : GoError) (parse : String → Option String)
        (decode : Option (String → α → α × Option GoError)) (out0 : α),
      (doRequest none (.response status (.readErr e)) parse decode out0).out = out0) ∧
    (∀ {α : Type} (status : Nat) (b : String) (parse : String → Option String)
        (out0 : α),
      (doRequest none (.response status (.bytes b)) parse none out0).out = out0) ∧
    (∀ {α : Type} (status : Nat) (b : String) (parse : String → Option String)
        (d : String → α → α × Option GoError) (out0 : α),
      ¬ 300 ≤ status → status ≠ 204 →
        doRequest none (.response status (.bytes b)) parse (some d) out0 =
          ⟨some status, (d b out0).2, (d b out0).1⟩) := by
  refine ⟨fun _ _ _ _ _ => rfl, fun _ _ _ _ => rfl, ?_, ?_, ?_, ?_⟩
  · intro α status body parse decode out0 h300
    cases body with
    | readErr e =>
      simp only [doRequest]
      rw [if_neg (by omega : ¬ status = 204)]
    | bytes b =>
      simp only [doRequest]
      rw [if_neg (by omega : ¬ status = 204), if_pos h300]
      by_cases hb : b = ""
      · subst hb
        rw [if_neg (fun h => h rfl : ¬ ("" ≠ ""))]
      · rw [if_pos hb]
        cases parse b <;> rfl
  · intro α status e parse decode out0
    simp only [doRequest]
    by_cases h204 : status = 204
    · rw [if_pos h204]
    · rw [if_neg h204]
  · intro α status b parse out0
    simp only [doRequest]
    by_cases h204 : status = 204
    · rw [if_pos h204]
    · rw [if_neg h204]
      by_cases h300 : 300 ≤ status
      · rw [if_pos h300]
        by_cases hb : b = ""
        · subst hb
          rw [if_neg (fun h => h rfl : ¬ ("" ≠ ""))]
        · rw [if_pos hb]
          cases parse b <;> rfl
      · rw [if_neg h300]
  · intro α status b parse d out0 h300 h204
    simp only [doRequest]
    rw [if_neg h204, if_neg h300]

/-- Witness for C5: a 404 leaves the output untouched; a 200 whose decoder
rewrites the output hands back exactly the decoder result. -/
theorem do_out_untouched_witness :
    (doRequest none (.response 404 (.bytes "x")) (fun _ => none)
        (some (fun _ (o : Nat) => (o + 1, none))) 0).out = 0 ∧
    doRequest none (.response 200 (.bytes "7")) (fun _ => none)
        (some (fun _ (_ : Nat) => (7, none))) 0 = ⟨some 200, none, 7⟩ :=
  ⟨do_out_untouched_on_error_paths.2.2.1 404 (.bytes "x") (fun _ => none)
      (some (fun _ o => (o + 1, none))) 0 (by decide),
    do_out_untouched_on_error_paths.2.2.2.2.2 200 "7" (fun _ => none)
      (fun _ _ => (7, none)) 0 (by decide) (by decide)⟩

/-- C1 counterexample: the claim states that when the backoff schedule is
exhausted, the call "returns the most recent underlying error from the last
attempt, not a synthetic error and not a nil error".  The attempt outcome
`⟨some 500, none⟩` — a 500 response paired with a nil error — is exactly
what the streaming primitive `open` produces for a 5xx response (`open`
returns the result of `c.client().Do(req)` unchanged, and `Do` pairs a
non-nil response with a nil error), and `UploadCgV2` invokes `retry` on the
`open` path with `retryOnServerErrors = true`.  On that outcome with the
schedule exhausted, `retry` returns a nil error. -/
theorem retry_exhausted_nil_error_counterexample :
    retry true 0 0 [⟨⟨some 500, none⟩, none, none⟩] = .done none none 1 0 ∧
      openRequest none (some ⟨500, "stream"⟩, none) = (some ⟨500, "stream"⟩, none) :=
  ⟨by decide, rfl⟩

/-- C1 (amended): for every sequence of attempt outcomes, `retry` retries an
attempt exactly when (the attempt produced a response with status `>= 500`
and the operation was invoked with retry-on-server-error true) or (the
attempt produced no response at all together with a non-nil error); any
other outcome terminates the loop immediately with that outcome; when the
schedule is exhausted (`NextBackOff` returns `Stop`) the call returns the
most recent underlying error from the last attempt — an error that is
non-nil for every outcome the JSON primitive `do` can produce, while for
the streaming primitive `open` a 5xx outcome carries a nil error, which is
then returned as-is. -/
theorem retry_loop_characterization :
    (∀ (b : Bool) (a s : Nat) (o : RetryOutcome) (d : Nat) (rest : List IterEnv),
      retryCond b o →
        retry b a s (⟨o, none, some d⟩ :: rest) = retry b (a + 1) (s + 1) rest) ∧
    (∀ (b : Bool) (a s : Nat) (o : RetryOutcome) (bo : Option Nat)
        (rest : List IterEnv),
      ¬ retryCond b o →
        retry b a s (⟨o, none, bo⟩ :: rest) = .done o.res o.err (a + 1) s) ∧
    (∀ (b : Bool) (a s : Nat) (o : RetryOutcome) (rest : List IterEnv),
      retryCond b o →
        retry b a s (⟨o, none, none⟩ :: rest) = .done none o.err (a + 1) s) ∧
    (∀ (b : Bool) (o : RetryOutcome), doOutcomeInv o → retryCond b o →
      o.err ≠ none) :=
  ⟨retry_go_of_cond, retry_done_of_not_cond, retry_stop_of_cond,
    doOutcomeInv_err_ne_none⟩

/-- Witness for C1: a 503 (retryable, schedule alive) followed by a
terminating 404; a transport failure with the schedule exhausted returns
that failure; a `do`-produced 5xx outcome carries a non-nil error. -/
theorem retry_loop_characterization_witness :
    retry true 0 0 [⟨⟨some 503, some (.domain 503 "e1")⟩, none, some 1⟩,
        ⟨⟨some 404, some (.domain 404 "e2")⟩, none, some 1⟩] =
      .done (some 404) (some (.domain 404 "e2")) 2 1 ∧
    retry false 0 0 [⟨⟨none, some .canceled⟩, none, none⟩] =
      .done none (some .canceled) 1 0 ∧
    (RetryOutcome.mk (some 500) (some (.plain "p"))).err ≠ none :=
  ⟨(retry_loop_characterization.1 true 0 0 ⟨some 503, some (.domain 503 "e1")⟩ 1
      [⟨⟨some 404, some (.domain 404 "e2")⟩, none, some 1⟩] (by decide)).trans
      (retry_loop_characterization.2.1 true 1 1
        ⟨some 404, some (.domain 404 "e2")⟩ (some 1) [] (by decide)),
    retry_loop_characterization.2.2.1 false 0 0 ⟨none, some .canceled⟩ []
      (by decide),
    retry_loop_characterization.2.2.2 true ⟨some 500, some (.plain "p")⟩
      ⟨fun h => Option.noConfusion h, fun _ _ _ => Option.some_ne_none _⟩
      (by decide)⟩

/-- C2: if the context is cancelled or past its deadline at the
per-iteration check (the only point at which `retry` consults `ctx.Err()`,
placed after the attempt and before the sleep), the call returns
immediately with the cancellation error and the response of the in-flight
attempt, performing no further attempt and no further sleep; in particular
a context whose cancellation is observed at the check before the second
retry sleep makes the call return the cancellation error after exactly two
attempts and one sleep, regardless of what the rest of the trace holds. -/
theorem retry_cancellation :
    (∀ (b : Bool) (a s : Nat) (o : RetryOutcome) (bo : Option Nat)
        (rest : List IterEnv) (cerr : GoError),
      retry b a s (⟨o, some cerr, bo⟩ :: rest) =
        .done o.res (some cerr) (a + 1) s) ∧
    (∀ (b : Bool) (o1 : RetryOutcome) (d1 : Nat) (o2 : RetryOutcome)
        (bo2 : Option Nat) (rest : List IterEnv) (cerr : GoError),
      retryCond b o1 →
        retry b 0 0 (⟨o1, none, some d1⟩ :: ⟨o2, some cerr, bo2⟩ :: rest) =
          .done o2.res (some cerr) 2 1) :=
  ⟨retry_ctx,
    fun b o1 d1 o2 bo2 rest cerr h =>
      (retry_go_of_cond b 0 0 o1 d1 (⟨o2, some cerr, bo2⟩ :: rest) h).trans
        (retry_ctx b 1 1 o2 bo2 rest cerr)⟩

/-- Witness for C2: a retried 503 followed by an attempt whose check
observes cancellation returns the cancellation error with exactly two
attempts and one sleep, even though the trace would allow a third attempt. -/
theorem retry_cancellation_witness :
    retry true 0 0 [⟨⟨some 503, some (.domain 503 "e")⟩, none, some 2⟩,
        ⟨⟨some 503, some (.domain 503 "e")⟩, some .canceled, some 2⟩,
        ⟨⟨some 200, none⟩, none, some 2⟩] =
      .done (some 503) (some .canceled) 2 1 :=
  retry_cancellation.2 true ⟨some 503, some (.domain 503 "e")⟩ 2
    ⟨some 503, some (.domain 503 "e")⟩ (some 2)
    [⟨⟨some 200, none⟩, none, some 2⟩] .canceled (by decide)

/-- C6: checksum chaining is deterministic (same inputs give the same
output across repeated applications, for both the source XOR variant and
the order-sensitive variant); the order-sensitive variant distinguishes
`["a","b"]` from `["b","a"]` under the mapping `a = 1, b = 2`; the
empty-input and no-match cases yield the sentinel 0; and the source XOR
variant yields 0 on empty input. -/
theorem chain_checksum_properties :
    (∀ ps1 ps2 m1 m2, ps1 = ps2 → m1 = m2 →
      ChainChecksumOrdered ps1 m1 = ChainChecksumOrdered ps2 m2) ∧
    (∀ ch1 ch2, ch1 = ch2 → ChainChecksum ch1 = ChainChecksum ch2) ∧
    (ChainChecksumOrdered ["a", "b"] [("a", 1), ("b", 2)] ≠
      ChainChecksumOrdered ["b", "a"] [("a", 1), ("b", 2)]) ∧
    (∀ m, ChainChecksumOrdered [] m = 0) ∧
    (∀ ps m, (∀ p ∈ ps, m.lookup p = (none : Option Nat)) →
      ChainChecksumOrdered ps m = 0) ∧
    ChainChecksum [] = 0 := by
  refine ⟨?_, ?_, ?_, ?_, ?_, rfl⟩
  · intro ps1 ps2 m1 m2 h1 h2
    rw [h1, h2]
  · intro ch1 ch2 h
    rw [h]
  · decide
  · intro m
    rfl
  · intro ps m h
    have hparts : (ps.filterMap fun p =>
        (m.lookup p).map fun c => p ++ ":" ++ toString c) = [] := by
      rw [List.filterMap_eq_nil_iff]
      intro p hp
      rw [h p hp]
      rfl
    simp only [ChainChecksumOrdered]
    rw [hparts, if_pos rfl]

/-- Witness for C6: a path list with no match in the mapping yields the
sentinel 0, and repeated application on equal inputs agrees. -/
theorem chain_checksum_properties_witness :
    ChainChecksumOrdered ["x"] [("y", 1)] = 0 ∧
      ChainChecksumOrdered ["a", "b"] [("a", 1), ("b", 2)] =
        ChainChecksumOrdered ["a", "b"] [("a", 1), ("b", 2)] :=
  ⟨chain_checksum_properties.2.2.2.2.1 ["x"] [("y", 1)] (by decide),
    chain_checksum_properties.1 ["a", "b"] ["a", "b"] [("a", 1), ("b", 2)]
      [("a", 1), ("b", 2)] rfl rfl⟩

/-- C7: `skipVerify = true` yields a configuration with verification
disabled and no trust-root pool installed, whatever pool was supplied;
`skipVerify = false` with a supplied pool installs exactly that pool; a
client certificate is attached exactly when mTLS material was resolved,
regardless of the verify mode; and `skipVerify = false` keeps verification
enabled. -/
theorem client_tls_config_modes :
    (∀ (pool : Option (List String)) (mtls : Bool) (cert : String),
      (clientWithTLSConfig true pool mtls cert).insecureSkipVerify = true ∧
        (clientWithTLSConfig true pool mtls cert).rootCAs = none) ∧
    (∀ (p : List String) (mtls : Bool) (cert : String),
      (clientWithTLSConfig false (some p) mtls cert).rootCAs = some p) ∧
    (∀ (sv : Bool) (pool : Option (List String)) (cert : String),
      (clientWithTLSConfig sv pool true cert).certificates = [cert]) ∧
    (∀ (pool : Option (List String)) (mtls : Bool) (cert : String),
      (clientWithTLSConfig false pool mtls cert).insecureSkipVerify = false) := by
  refine ⟨?_, ?_, ?_, ?_⟩
  · intro pool mtls cert
    cases mtls <;> simp [clientWithTLSConfig]
  · intro p mtls cert
    cases mtls <;> simp [clientWithTLSConfig]
  · intro sv pool cert
    cases sv <;> cases pool <;> simp [clientWithTLSConfig]
  · intro pool mtls cert
    cases mtls <;> cases pool <;> simp [clientWithTLSConfig]

/-- C8: `loadRootCAs` on the empty directory path returns absent (nil
pool); on any non-empty path it returns a pool — also when the directory
cannot be read — built from the platform default pool (or an empty pool
when unavailable) by appending, in directory order, the certificates that
parse out of each readable entry, with unreadable and unparsable entries
skipped. -/
theorem load_root_cas_total :
    (∀ (parsePEM : String → List String) (systemPool : Option (List String))
        (readDir : Option (List DirEntry)),
      loadRootCAs parsePEM systemPool "" readDir = none) ∧
    (∀ (parsePEM : String → List String) (systemPool : Option (List String))
        (dir : String) (readDir : Option (List DirEntry)), dir ≠ "" →
      (loadRootCAs parsePEM systemPool dir readDir).isSome = true) ∧
    (∀ (parsePEM : String → List String) (systemPool : Option (List String))
        (dir : String), dir ≠ "" →
      loadRootCAs parsePEM systemPool dir none = some (systemPool.getD [])) ∧
    (∀ (parsePEM : String → List String) (systemPool : Option (List String))
        (dir : String) (files : List DirEntry), dir ≠ "" →
      loadRootCAs parsePEM systemPool dir (some files) =
        some (systemPool.getD [] ++ parsedCerts parsePEM files)) := by
  refine ⟨?_, ?_, ?_, ?_⟩
  · intro parsePEM systemPool readDir
    simp [loadRootCAs]
  · intro parsePEM systemPool dir readDir h
    cases readDir <;> cases systemPool <;> simp [loadRootCAs, h]
  · intro parsePEM systemPool dir h
    cases systemPool <;> simp [loadRootCAs, h]
  · intro parsePEM systemPool dir files h
    cases systemPool <;> simp [loadRootCAs, h, loadRootCAs_foldl]

/-- Witness for C8: a directory with one valid PEM, one garbage file and
one unreadable file yields the system pool plus the one parsed
certificate. -/
theorem load_root_cas_total_witness :
    loadRootCAs (fun s => if s = "PEM" then ["certA"] else []) (some ["sys"])
        "certs" (some [⟨"good.pem", some "PEM"⟩, ⟨"bad.pem", some "junk"⟩,
          ⟨"locked.pem", none⟩]) = some ["sys", "certA"] :=
  (load_root_cas_total.2.2.2 (fun s => if s = "PEM" then ["certA"] else [])
      (some ["sys"]) "certs"
      [⟨"good.pem", some "PEM"⟩, ⟨"bad.pem", some "junk"⟩, ⟨"locked.pem", none⟩]
      (by decide)).trans (by decide)

/-- C9 counterexample: `GetTestTimes` builds its backoff with
`createBackoff(10 * 60 * time.Second)` (src/client/http.go:303), a
10-minute budget, while the claim assigns it to the 5-minute class. -/
theorem get_test_times_budget_counterexample :
    getTestTimesOp cFull = .ok (.retryWith false true 600) ∧
      (600 : Nat) ≠ 5 * 60 :=
  ⟨rfl, by decide⟩

/-- C9 (amended): whenever validation passes, `Write` and `SelectTests` use
a 10-minute maximum elapsed backoff (both with retry-on-server-error
false); `UploadCg`, `UploadCgFailedTest` and `UploadCgV2` use 45 minutes;
`DownloadLink`, `CommitInfo`, `Summary` and `GetTestCases` use 5 minutes;
`GetTestTimes` uses 10 minutes (not 5); and `WriteSavings` and
`MLSelectTests` perform exactly one attempt with no retry. -/
theorem operation_retry_budgets :
    (∀ c stepID report, validateWriteArgs c stepID report = none →
      writeOp c stepID report = .ok (.retryWith false false (10 * 60))) ∧
    (∀ c stepID source target,
      validateSelectTestsArgs c stepID source target = none →
        selectTestsOp c stepID source target =
          .ok (.retryWith false false (10 * 60))) ∧
    (∀ c stepID source target,
      validateUploadCgArgs c stepID source target = none →
        uploadCgOp c stepID source target = .ok (.retryWith false true (45 * 60))) ∧
    (∀ c stepID source target,
      validateUploadCgArgs c stepID source target = none →
        uploadCgFailedTestOp c stepID source target =
          .ok (.retryWith false true (45 * 60))) ∧
    (∀ c s, validateTiArgs c = none →
      uploadCgV2Op c (.rawString s) = .ok (.retryWith true true (45 * 60))) ∧
    (∀ c language, validateDownloadLinkArgs c language = none →
      downloadLinkOp c language = .ok (.retryWith false true (5 * 60))) ∧
    (∀ c stepID branch, validateCommitInfoArgs c stepID branch = none →
      commitInfoOp c stepID branch = .ok (.retryWith false true (5 * 60))) ∧
    (∀ c, validateMLSelectTestArgs c = none →
      summaryOp c = .ok (.retryWith false true (5 * 60))) ∧
    (∀ c, validateMLSelectTestArgs c = none →
      getTestCasesOp c = .ok (.retryWith false true (5 * 60))) ∧
    (∀ c, validateGetTestTimesArgs c = none →
      getTestTimesOp c = .ok (.retryWith false true (10 * 60))) ∧
    (∀ c, validateMLSelectTestArgs c = none →
      mlSelectTestsOp c = .ok .single) ∧
    (∀ c stepID, validateWriteSavingsArgs c stepID = none →
      writeSavingsOp c stepID = .ok .single) := by
  refine ⟨?_, ?_, ?_, ?_, ?_, ?_, ?_, ?_, ?_, ?_, ?_, ?_⟩
  · intro c stepID report h
    unfold writeOp; rw [h]
  · intro c stepID source target h
    unfold selectTestsOp; rw [h]
  · intro c stepID source target h
    unfold uploadCgOp uploadCGInternal; rw [h]
  · intro c stepID source target h
    unfold uploadCgFailedTestOp uploadCGInternal; rw [h]
  · intro c s h
    unfold uploadCgV2Op; rw [h]
  · intro c language h
    unfold downloadLinkOp; rw [h]
  · intro c stepID branch h
    unfold commitInfoOp; rw [h]
  · intro c h
    unfold summaryOp; rw [h]
  · intro c h
    unfold getTestCasesOp; rw [h]
  · intro c h
    unfold getTestTimesOp; rw [h]
  · intro c h
    unfold mlSelectTestsOp; rw [h]
  · intro c stepID h
    unfold writeSavingsOp; rw [h]

/-- Witness for C9 on a fully populated client: the result-write budget,
the raw-JSON upload budget and the single-attempt ML selection. -/
theorem operation_retry_budgets_witness :
    writeOp cFull "step1" "junit" = .ok (.retryWith false false 600) ∧
      uploadCgV2Op cFull (.rawString "[]") = .ok (.retryWith true true 2700) ∧
      mlSelectTestsOp cFull = .ok .single :=
  ⟨operation_retry_budgets.1 cFull "step1" "junit" rfl,
    operation_retry_budgets.2.2.2.2.1 cFull "[]" rfl,
    operation_retry_budgets.2.2.2.2.2.2.2.2.2.2.1 cFull rfl⟩

/-- C10: when `open` yields no response object — the request could not be
constructed, or the transport failed so `Do` returned a nil response with a
non-nil error — `DownloadAgent` dereferences the absent response to extract
its body and panics instead of returning the transport error; it returns
the `(stream, error)` pair normally exactly when a response object
exists. -/
theorem download_agent_nil_deref :
    (∀ (e : GoError) (doSend : Option HResponse × Option GoError),
      downloadAgent (some e) doSend = .panics) ∧
    (∀ (e : GoError), downloadAgent none (none, some e) = .panics) ∧
    (∀ (r : HResponse) (err : Option GoError),
      downloadAgent none (some r, err) = .ok r.bodyStream err) :=
  ⟨fun _ _ => rfl, fun _ => rfl, fun _ _ => rfl⟩

end TiClient

